import Mathlib

/-!
Shallow embedding of `pkg/filesystem/upload.go` from Cloudreve: the upload
pipeline (`Upload`), the destination resolver (`GenerateSavePath`), the
cancellation watcher (`CancelUpload`) and the credential issuer
(`GetUploadToken`), together with the external collaborators they consume
(hooks, storage handler, settings store, shared cache), modelled as explicit
environments.  Machine integers are modelled as `Int`/`Nat` with explicit
range checks where the Go code checks them.
-/

namespace Cloudreve

/-- Error codes attached by `serializer.NewError`.  Modelled from the spec:
the `serializer` package is not under `src/`; the spec names a ConfigError
(malformed TTL setting, `CodeInternalSetting`) and a CredentialError
(handler failed to issue a credential, `CodeEncryptError`). -/
inductive ErrCode where
  | internalSetting
  | encryptError
deriving DecidableEq, Repr

/-- Go `error` values as they appear in this file: either a plain opaque
error (identified by its message) or a `serializer.AppError` built by
`serializer.NewError(code, msg, cause)`. -/
inductive GoErr where
  | raw (msg : String)
  | app (code : ErrCode) (msg : String) (cause : GoErr)
deriving DecidableEq, Repr

/-- `serializer.UploadCredential`: opaque token plus expiry, as the spec
describes it (the concrete struct is not under `src/`). -/
structure UploadCredential where
  token : String
  expires : Int
deriving DecidableEq, Repr

/-- `serializer.UploadSession`: the CallbackSession record
`{ownerID, virtualPath}` persisted in the shared cache. -/
structure UploadSession where
  UID : Nat
  VirtualPath : String
deriving DecidableEq, Repr

/-- The fields of `model.Policy` that `GenerateSavePath` reads.  `Type` is a
Lean keyword, so the field is spelled `PolicyType`. -/
structure Policy where
  PolicyType : String
  AutoRename : Bool
  DirNameRule : String
  FileNameRule : String
deriving DecidableEq, Repr

/-- The zero value of `model.Policy` restricted to the fields used here. -/
def zeroPolicy : Policy :=
  { PolicyType := "", AutoRename := false, DirNameRule := "", FileNameRule := "" }

/-- `serializer.UploadPolicy`: the caller-declared policy read from the
context in the anonymous branch of `GenerateSavePath` (fields used there). -/
structure UploadPolicy where
  AutoRename : Bool
  SavePath : String
  FileName : String
deriving DecidableEq, Repr

/-- The `FileHeader` interface: declared size, client-reported file name and
client-reported virtual path. -/
structure FileHeader where
  size : Nat
  fileName : String
  virtualPath : String
deriving DecidableEq, Repr

/-- The fields of `model.File` that `Upload` reads: the recorded source
location of a pre-existing stored object. -/
structure File where
  SourceName : String
deriving DecidableEq, Repr

/-- The request context carried by `*gin.Context`: its `Request.Context()`
is modelled by the time at which it is done (`none` = never closes). -/
structure GinContext where
  reqDoneAt : Option Nat
deriving DecidableEq, Repr

/-- A value stored in the context under the `fsctx.HTTPCtx` key: either a
`context.Context` (again modelled by its done-time) or a value of some other
dynamic type, on which the unchecked type assertion in `CancelUpload`
panics. -/
inductive HTTPVal where
  | ctxVal (reqDoneAt : Option Nat)
  | otherVal
deriving DecidableEq, Repr

/-- A `context.Context` as used by this file: the typed values installed via
`context.WithValue` (file header, origin file model, declared upload policy,
save path, gin context, HTTP context) plus the operation-scoped done-time
(`doneAt`, `none` = the operation context never ends) and an explicit random
seed `rand` consumed by auto-rename expansion. -/
structure Ctx where
  fileHeader : Option FileHeader := none
  fileModel : Option File := none
  uploadPolicy : Option UploadPolicy := none
  savePath : Option String := none
  ginCtx : Option GinContext := none
  httpVal : Option HTTPVal := none
  doneAt : Option Nat := none
  rand : String := ""

/-- A lifecycle hook: reads the context and may return an error. -/
def Hook : Type := Ctx → Option GoErr

/-- The parts of `FileSystem` that `upload.go` reads: the acting user's ID
and bound storage policy, the four optional lifecycle hooks, and the storage
handler contract (`Put` and `Token`). -/
structure FileSystem where
  userID : Nat
  userNick : String
  userPolicy : Policy
  beforeUpload : Option Hook := none
  afterUpload : Option Hook := none
  afterValidateFailed : Option Hook := none
  afterUploadCanceled : Option Hook := none
  handlerPut : Ctx → FileHeader → String → Nat → Option GoErr
  handlerToken : Int → String → Except GoErr UploadCredential

/-- Modelled from the spec: hook dispatch (`fs.Trigger`) is not under
`src/`.  The spec describes the hook set as four optional callables bound to
lifecycle events and invoked synchronously; triggering an absent hook is a
no-op that reports no error. -/
def Trigger (ctx : Ctx) (hook : Option Hook) : Option GoErr :=
  match hook with
  | none => none
  | some h => h ctx

/-- Whether the first character list is a prefix of the second. -/
def isPrefixOfChars : List Char → List Char → Bool
  | [], _ => true
  | _ :: _, [] => false
  | p :: ps, c :: cs => p = c && isPrefixOfChars ps cs

/-- Replace every non-overlapping occurrence of `pat` by `rep`, scanning
left to right; `fuel` bounds the recursion (the input length suffices). -/
def replaceChars (pat rep : List Char) : Nat → List Char → List Char
  | _, [] => []
  | 0, s => s
  | fuel + 1, c :: rest =>
    if pat ≠ [] && isPrefixOfChars pat (c :: rest) then
      rep ++ replaceChars pat rep fuel ((c :: rest).drop pat.length)
    else
      c :: replaceChars pat rep fuel rest

/-- `strings.Replace(s, pat, rep, -1)` for a non-empty pattern. -/
def strReplace (s pat rep : String) : String :=
  String.mk (replaceChars pat.data rep.data s.data.length s.data)

/-- Decimal digit characters of a natural number, most significant first;
`fuel` bounds the recursion (the number itself suffices). -/
def natDigits : Nat → Nat → List Char
  | 0, _ => []
  | _ + 1, 0 => []
  | fuel + 1, n => natDigits fuel (n / 10) ++ [Char.ofNat (48 + n % 10)]

/-- Decimal rendering of a natural number (`strconv.Itoa` on `Nat`). -/
def natToString (n : Nat) : String :=
  if n = 0 then "0" else String.mk (natDigits n n)

/-- Modelled from the spec: naming rules (`model.Policy.GeneratePath` /
`GenerateFileName` bodies) are not under `src/`; the spec calls them
templated string-expansion functions parameterized by the owner identity and
the virtual path / file name.  Placeholders expanded: `{uid}`, `{path}`,
`{name}`. -/
def expandRule (rule : String) (uid : Nat) (path name : String) : String :=
  strReplace (strReplace (strReplace rule "{uid}" (natToString uid)) "{path}" path) "{name}" name

/-- Modelled from the spec: directory-naming rule expansion, parameterized
by owner identity and virtual path. -/
def Policy.GeneratePath (p : Policy) (uid : Nat) (path : String) : String :=
  expandRule p.DirNameRule uid path ""

/-- Modelled from the spec: file-naming rule expansion, parameterized by
owner identity and file name; the auto-rename flag injects non-determinism
(randomized collision-avoiding suffixes), modelled by the explicit `rand`
argument appended only when auto-rename is on. -/
def Policy.GenerateFileName (p : Policy) (uid : Nat) (origin : String) (rand : String) : String :=
  let base := expandRule p.FileNameRule uid "" origin
  if p.AutoRename then base ++ rand else base

/-- Split a character list on a separator character; always returns at
least one (possibly empty) segment. -/
def splitChars (sep : Char) : List Char → List (List Char)
  | [] => [[]]
  | c :: rest =>
    match splitChars sep rest with
    | [] => if c = sep then [[], []] else [[c]]
    | g :: gs => if c = sep then [] :: g :: gs else (c :: g) :: gs

/-- Join character-list segments with a separator. -/
def intercalateChars (sep : List Char) : List (List Char) → List Char
  | [] => []
  | [g] => g
  | g :: gs => g ++ sep ++ intercalateChars sep gs

/-- One step of Go's `path.Clean` element processing: push a path element
onto the (reversed) stack of output elements, honoring `.` and `..`. -/
def pushPart (rooted : Bool) (stack : List (List Char)) (p : List Char) : List (List Char) :=
  if p = [] ∨ p = ['.'] then stack
  else if p = ['.', '.'] then
    match stack with
    | [] => if rooted then [] else [['.', '.']]
    | top :: rest => if top = ['.', '.'] then p :: stack else rest
  else p :: stack

/-- Go's `filepath.Clean` for slash-separated paths: lexically removes
duplicate separators, `.` elements and `..` elements (together with the
non-`..` element that precedes them), returning `.` for an empty result. -/
def pathClean (path : String) : String :=
  if path = "" then "."
  else
    let rooted := isPrefixOfChars ['/'] path.data
    let parts := (splitChars '/' path.data).foldl (pushPart rooted) []
    let body := intercalateChars ['/'] parts.reverse
    if rooted then (if body = [] then "/" else String.mk ('/' :: body))
    else (if body = [] then "." else String.mk body)

/-- Go's `filepath.Join` on two elements: empty elements before the first
non-empty one are dropped, the rest are joined with `/` and cleaned; if both
elements are empty the result is the empty string. -/
def filepathJoin (a b : String) : String :=
  if a = "" then (if b = "" then "" else pathClean b)
  else pathClean (a ++ "/" ++ b)

/-- The remote-type `model.Policy` built from a caller-declared
`serializer.UploadPolicy` in the anonymous branch of `GenerateSavePath`. -/
def policyOfUpload (policy : UploadPolicy) : Policy :=
  { PolicyType := "remote", AutoRename := policy.AutoRename,
    DirNameRule := policy.SavePath, FileNameRule := policy.FileName }

/-- The best-effort anonymous policy built inside `GenerateSavePath`: the
declared upload policy converted to a remote-type `model.Policy`, or the
zero value when the context carries none. -/
def anonymousPolicyOf (ctx : Ctx) : Policy :=
  match ctx.uploadPolicy with
  | some policy => policyOfUpload policy
  | none => zeroPolicy

/-- `GenerateSavePath`: for an authenticated owner, join the owner policy's
directory rule (owner ID, virtual path) with its file rule (owner ID, file
name); for an anonymous filesystem, build a best-effort remote-type policy
from the context's declared upload policy (zero-valued when absent) and join
its rules with owner identity 0 and empty virtual path. -/
def GenerateSavePath (fs : FileSystem) (ctx : Ctx) (file : FileHeader) : String :=
  if fs.userID ≠ 0 then
    filepathJoin
      (Policy.GeneratePath fs.userPolicy fs.userID file.virtualPath)
      (Policy.GenerateFileName fs.userPolicy fs.userID file.fileName ctx.rand)
  else
    filepathJoin
      (Policy.GeneratePath (anonymousPolicyOf ctx) 0 "")
      (Policy.GenerateFileName (anonymousPolicyOf ctx) 0 file.fileName ctx.rand)

/-- The context after `ctx = context.WithValue(ctx, fsctx.FileHeaderCtx, file)`
at the top of `Upload`. -/
def ctxWithFile (ctx : Ctx) (file : FileHeader) : Ctx :=
  { ctx with fileHeader := some file }

/-- Destination resolution inside `Upload`: if the context carries a
`model.File` (update of an existing object) reuse its recorded source name
verbatim, otherwise invoke `GenerateSavePath`.  The boolean records whether
`GenerateSavePath` was invoked. -/
def resolveSavePath (fs : FileSystem) (ctx : Ctx) (file : FileHeader) : String × Bool :=
  match ctx.fileModel with
  | some originFile => (originFile.SourceName, false)
  | none => (GenerateSavePath fs ctx file, true)

/-- The save path `Upload` binds into the context. -/
def savePathOf (fs : FileSystem) (ctx : Ctx) (file : FileHeader) : String :=
  (resolveSavePath fs (ctxWithFile ctx file) file).1

/-- Whether `Upload` invokes the destination resolver `GenerateSavePath`
(as opposed to reusing an origin file's recorded source name). -/
def genCalledOf (fs : FileSystem) (ctx : Ctx) (file : FileHeader) : Bool :=
  (resolveSavePath fs (ctxWithFile ctx file) file).2

/-- The context after `Upload` has bound both the file header and the
resolved save path (`fsctx.SavePathCtx`). -/
def ctxBound (fs : FileSystem) (ctx : Ctx) (file : FileHeader) : Ctx :=
  { ctxWithFile ctx file with savePath := some (savePathOf fs ctx file) }

/-- Observable trace of one `Upload` call: the arguments of the `Put` call
(`none` when `Put` was never invoked), whether the AfterUpload and
AfterValidateFailed hooks were invoked, the save path bound into the context
(`none` when never resolved), whether `GenerateSavePath` was invoked, and
the follow-up error recorded on the secondary (log) channel. -/
structure UploadTrace where
  putCall : Option (String × Nat)
  afterUploadCalled : Bool
  afterValidateFailedCalled : Bool
  savePathBound : Option String
  generateSavePathCalled : Bool
  followUpLogged : Option GoErr
deriving DecidableEq, Repr

/-- The trace of an `Upload` call that aborted before resolving anything. -/
def emptyUploadTrace : UploadTrace :=
  ⟨none, false, false, none, false, none⟩

/-- `Upload`: bind the file header; run BeforeUpload and abort on its error;
resolve the save path (origin source name for updates, `GenerateSavePath`
otherwise) and bind it; delegate the transfer to `Handler.Put` and return
its error verbatim on failure; on success run AfterUpload, and on its
failure run AfterValidateFailed, logging (not returning) the follow-up
error and returning the AfterUpload error.  The concurrently launched
`CancelUpload` watcher is modelled separately by `CancelUpload`. -/
def Upload (fs : FileSystem) (ctx : Ctx) (file : FileHeader) : Option GoErr × UploadTrace :=
  match Trigger (ctxWithFile ctx file) fs.beforeUpload with
  | some e => (some e, emptyUploadTrace)
  | none =>
    match fs.handlerPut (ctxBound fs ctx file) file (savePathOf fs ctx file) file.size with
    | some e =>
        (some e,
         ⟨some (savePathOf fs ctx file, file.size), false, false,
          some (savePathOf fs ctx file), genCalledOf fs ctx file, none⟩)
    | none =>
        match Trigger (ctxBound fs ctx file) fs.afterUpload with
        | some e =>
            (some e,
             ⟨some (savePathOf fs ctx file, file.size), true, true,
              some (savePathOf fs ctx file), genCalledOf fs ctx file,
              Trigger (ctxBound fs ctx file) fs.afterValidateFailed⟩)
        | none =>
            (none,
             ⟨some (savePathOf fs ctx file, file.size), true, false,
              some (savePathOf fs ctx file), genCalledOf fs ctx file, none⟩)

/-- Outcome of the `CancelUpload` watcher: the unchecked type assertion
panicked; the watcher is blocked forever because the request context never
ends; the watcher returned without firing the hook; or the watcher fired
AfterUploadCanceled once, recording (not escalating) the hook's error. -/
inductive CancelOutcome where
  | panicked
  | blocked
  | noFire
  | fired (hookErr : Option GoErr)
deriving DecidableEq, Repr

/-- How many times a `CancelOutcome` fired the AfterUploadCanceled hook. -/
def CancelOutcome.fireCount : CancelOutcome → Nat
  | .fired _ => 1
  | _ => 0

/-- The request-scoped context extracted at the top of `CancelUpload`:
`ginCtx.Request.Context()` when a `*gin.Context` is stored under
`fsctx.GinCtx`, otherwise the unchecked assertion
`ctx.Value(fsctx.HTTPCtx).(context.Context)`, which panics (`none`) when
the value is absent or of another type. -/
def reqContextOf (ctx : Ctx) : Option (Option Nat) :=
  match ctx.ginCtx with
  | some g => some g.reqDoneAt
  | none =>
    match ctx.httpVal with
    | some (HTTPVal.ctxVal d) => some d
    | some HTTPVal.otherVal => none
    | none => none

/-- Whether the operation-scoped context has already ended at time `t`. -/
def opEndedBy (ctx : Ctx) (t : Nat) : Bool :=
  match ctx.doneAt with
  | some tOp => tOp ≤ t
  | none => false

/-- `CancelUpload`: extract the request-scoped context (panicking on a
failed type assertion); block until it ends; at that moment, if the
operation-scoped context has also already ended, do nothing; otherwise this
is a client abort: skip entirely when no AfterUploadCanceled hook is
registered, else bind the save path into the context and fire the hook once,
recording its error. -/
def CancelUpload (fs : FileSystem) (ctx : Ctx) (path : String) : CancelOutcome :=
  match reqContextOf ctx with
  | none => .panicked
  | some none => .blocked
  | some (some tReq) =>
    if opEndedBy ctx tReq then .noFire
    else
      match fs.afterUploadCanceled with
      | none => .noFire
      | some h => .fired (h { ctx with savePath := some path })

/-- Whether the context satisfies `CancelUpload`'s implicit precondition: a
gin context is present, or the `fsctx.HTTPCtx` value is present and is a
`context.Context`. -/
def hasReqCtx (ctx : Ctx) : Bool :=
  ctx.ginCtx.isSome ||
    (match ctx.httpVal with
     | some (HTTPVal.ctxVal _) => true
     | _ => false)

/-- Decimal digit parsing for `strconv.ParseInt`: `none` when the list is
empty or contains a non-digit. -/
def parseDigits : List Char → Option Nat
  | [] => none
  | [c] => if c.isDigit then some (c.toNat - 48) else none
  | c :: rest =>
    if c.isDigit then
      match parseDigits rest with
      | some n => some ((c.toNat - 48) * 10 ^ rest.length + n)
      | none => none
    else none

/-- Go's `strconv.ParseInt(s, 10, 64)`: optional sign, non-empty digit run,
value within the signed 64-bit range; `none` models a returned error. -/
def parseInt64 (s : String) : Option Int :=
  match s.data with
  | [] => none
  | c :: rest =>
    let signDigits : Bool × List Char :=
      if c = '-' then (true, rest)
      else if c = '+' then (false, rest)
      else (false, c :: rest)
    match parseDigits signDigits.2 with
    | none => none
    | some n =>
      let v : Int := if signDigits.1 then -(n : Int) else (n : Int)
      if -(2 ^ 63) ≤ v ∧ v < 2 ^ 63 then some v else none

/-- Association-list lookup modelling the map returned by the settings store
(`model.GetSettingByNames`). -/
def lookupSetting (settings : List (String × String)) (name : String) : Option String :=
  match settings with
  | [] => none
  | (k, v) :: rest => if k = name then some v else lookupSetting rest name

/-- The external state `GetUploadToken` consumes: the settings store rows,
the shared cache's `Set` behavior, and the random token produced by
`util.RandStringRunes(32)`. -/
structure Globals where
  settings : List (String × String)
  cacheSet : String → UploadSession → Int → Option GoErr
  randKey : String

/-- TTL resolution in `GetUploadToken`: `upload_credential_timeout` defaults
to 3600 when absent, `upload_session_timeout` to 86400; a present but
unparsable value is a fatal `CodeInternalSetting` error (credential TTL
checked first). -/
def computeTTLs (settings : List (String × String)) : Except GoErr (Int × Int) :=
  let credentialTTL : Except GoErr Int :=
    match lookupSetting settings "upload_credential_timeout" with
    | some ttlStr =>
      match parseInt64 ttlStr with
      | some v => .ok v
      | none => .error (GoErr.app ErrCode.internalSetting
          "invalid upload credential ttl setting" (GoErr.raw ttlStr))
    | none => .ok 3600
  match credentialTTL with
  | .error e => .error e
  | .ok cred =>
    match lookupSetting settings "upload_session_timeout" with
    | some ttlStr =>
      match parseInt64 ttlStr with
      | some v => .ok (cred, v)
      | none => .error (GoErr.app ErrCode.internalSetting
          "invalid upload session ttl setting" (GoErr.raw ttlStr))
    | none => .ok (cred, 86400)

/-- Observable trace of one `GetUploadToken` call: the `(ttl, key)` passed
to `Handler.Token` and its result (`none` when `Token` was never called),
and the `(key, session, ttl)` passed to `cache.Set` and its result (`none`
when `Set` was never called). -/
structure TokenTrace where
  tokenCall : Option (Int × String)
  tokenResult : Option (Except GoErr UploadCredential)
  cacheCall : Option (String × UploadSession × Int)
  cacheResult : Option (Option GoErr)

/-- `GetUploadToken`: resolve the two TTLs (aborting on a malformed
setting); ask the handler for a credential bound to a fresh random callback
key, wrapping handler failure as a `CodeEncryptError`; persist the
CallbackSession `{UID, VirtualPath}` in the shared cache under
`"callback_" ++ key` with the session TTL, returning the cache error
verbatim on failure; return the credential only after both steps succeed. -/
def GetUploadToken (g : Globals) (fs : FileSystem) (path : String) (size : Nat) :
    Except GoErr UploadCredential × TokenTrace :=
  match computeTTLs g.settings with
  | .error e => (.error e, ⟨none, none, none, none⟩)
  | .ok (credentialTTL, callBackSessionTTL) =>
    let callbackKey := g.randKey
    match fs.handlerToken credentialTTL callbackKey with
    | .error e =>
        (.error (GoErr.app ErrCode.encryptError "cannot get upload credential" e),
         ⟨some (credentialTTL, callbackKey), some (.error e), none, none⟩)
    | .ok credential =>
      let sess : UploadSession := ⟨fs.userID, path⟩
      let key := "callback_" ++ callbackKey
      match g.cacheSet key sess callBackSessionTTL with
      | some e =>
          (.error e,
           ⟨some (credentialTTL, callbackKey), some (.ok credential),
            some (key, sess, callBackSessionTTL), some (some e)⟩)
      | none =>
          (.ok credential,
           ⟨some (credentialTTL, callbackKey), some (.ok credential),
            some (key, sess, callBackSessionTTL), some none⟩)

/-! Concrete fixtures used by the witness theorems. -/

/-- A context with no values installed. -/
def emptyCtx : Ctx := {}

/-- A small storage policy used by witness filesystems. -/
def demoPolicy : Policy :=
  { PolicyType := "local", AutoRename := false,
    DirNameRule := "/uploads/{uid}", FileNameRule := "{name}" }

/-- A small file header used by witness calls. -/
def demoFile : FileHeader :=
  { size := 3, fileName := "a.txt", virtualPath := "/a.txt" }

/-- A handler `Put` that always succeeds. -/
def okPut : Ctx → FileHeader → String → Nat → Option GoErr :=
  fun _ _ _ _ => none

/-- A handler `Token` that echoes its inputs into the credential. -/
def okToken : Int → String → Except GoErr UploadCredential :=
  fun ttl key => .ok { token := "cred-" ++ key, expires := ttl }

/-- Witness filesystem for the BeforeUpload-failure claim. -/
def wFsBefore : FileSystem :=
  { userID := 1, userNick := "u", userPolicy := demoPolicy,
    beforeUpload := some (fun _ => some (GoErr.raw "quota exceeded")),
    handlerPut := okPut, handlerToken := okToken }

/-- Witness filesystem for the Put-failure claim. -/
def wFsPut : FileSystem :=
  { userID := 1, userNick := "u", userPolicy := demoPolicy,
    handlerPut := fun _ _ _ _ => some (GoErr.raw "disk full"),
    handlerToken := okToken }

/-- Witness filesystem for the AfterUpload / AfterValidateFailed claim. -/
def wFsAfter : FileSystem :=
  { userID := 1, userNick := "u", userPolicy := demoPolicy,
    afterUpload := some (fun _ => some (GoErr.raw "E1")),
    afterValidateFailed := some (fun _ => some (GoErr.raw "E2")),
    handlerPut := okPut, handlerToken := okToken }

/-- Witness filesystem for the update-in-place claim. -/
def wFsUpdate : FileSystem :=
  { userID := 1, userNick := "u", userPolicy := demoPolicy,
    handlerPut := okPut, handlerToken := okToken }

/-- Witness context marking an update of an existing object. -/
def wCtxUpdate : Ctx :=
  { fileModel := some { SourceName := "uploads/1/origin.bin" } }

/-!  Claim theorems. -/

/-- C3: if the BeforeUpload hook returns an error, `Upload` returns that
error immediately: `Put` is never invoked, AfterUpload and
AfterValidateFailed are never invoked, and no destination is resolved or
bound. -/
theorem upload_beforeHookError_aborts (fs : FileSystem) (ctx : Ctx) (file : FileHeader)
    (e : GoErr) (h : Trigger (ctxWithFile ctx file) fs.beforeUpload = some e) :
    (Upload fs ctx file).1 = some e ∧
    (Upload fs ctx file).2.putCall = none ∧
    (Upload fs ctx file).2.afterUploadCalled = false ∧
    (Upload fs ctx file).2.afterValidateFailedCalled = false ∧
    (Upload fs ctx file).2.savePathBound = none ∧
    (Upload fs ctx file).2.generateSavePathCalled = false := by
  simp [Upload, h, emptyUploadTrace]

/-- Witness for C3 at a concrete filesystem whose BeforeUpload hook fails. -/
theorem upload_beforeHookError_aborts_witness :
    (Upload wFsBefore emptyCtx demoFile).1 = some (GoErr.raw "quota exceeded") ∧
    (Upload wFsBefore emptyCtx demoFile).2.putCall = none ∧
    (Upload wFsBefore emptyCtx demoFile).2.afterUploadCalled = false ∧
    (Upload wFsBefore emptyCtx demoFile).2.afterValidateFailedCalled = false ∧
    (Upload wFsBefore emptyCtx demoFile).2.savePathBound = none ∧
    (Upload wFsBefore emptyCtx demoFile).2.generateSavePathCalled = false :=
  upload_beforeHookError_aborts wFsBefore emptyCtx demoFile (GoErr.raw "quota exceeded") rfl

/-- C8: if the handler `Put` returns an error, `Upload` returns that error
verbatim and neither AfterUpload nor AfterValidateFailed is invoked. -/
theorem upload_put_error_verbatim (fs : FileSystem) (ctx : Ctx) (file : FileHeader)
    (e : GoErr)
    (hb : Trigger (ctxWithFile ctx file) fs.beforeUpload = none)
    (hp : fs.handlerPut (ctxBound fs ctx file) file (savePathOf fs ctx file) file.size
            = some e) :
    (Upload fs ctx file).1 = some e ∧
    (Upload fs ctx file).2.afterUploadCalled = false ∧
    (Upload fs ctx file).2.afterValidateFailedCalled = false := by
  simp [Upload, hb, hp]

/-- Witness for C8 at a concrete filesystem whose `Put` fails. -/
theorem upload_put_error_verbatim_witness :
    (Upload wFsPut emptyCtx demoFile).1 = some (GoErr.raw "disk full") ∧
    (Upload wFsPut emptyCtx demoFile).2.afterUploadCalled = false ∧
    (Upload wFsPut emptyCtx demoFile).2.afterValidateFailedCalled = false :=
  upload_put_error_verbatim wFsPut emptyCtx demoFile (GoErr.raw "disk full") rfl rfl

/-- C5: if the transfer succeeds, AfterUpload fails with `e1` and
AfterValidateFailed fails with `e2`, then `Upload` returns `e1` and `e2` is
only recorded on the secondary log channel. -/
theorem upload_afterUpload_error_precedence (fs : FileSystem) (ctx : Ctx)
    (file : FileHeader) (e1 e2 : GoErr)
    (hb : Trigger (ctxWithFile ctx file) fs.beforeUpload = none)
    (hp : fs.handlerPut (ctxBound fs ctx file) file (savePathOf fs ctx file) file.size
            = none)
    (ha : Trigger (ctxBound fs ctx file) fs.afterUpload = some e1)
    (hv : Trigger (ctxBound fs ctx file) fs.afterValidateFailed = some e2) :
    (Upload fs ctx file).1 = some e1 ∧
    (Upload fs ctx file).2.followUpLogged = some e2 := by
  simp [Upload, hb, hp, ha, hv]

/-- Witness for C5 at a concrete filesystem where AfterUpload fails with E1
and AfterValidateFailed fails with E2. -/
theorem upload_afterUpload_error_precedence_witness :
    (Upload wFsAfter emptyCtx demoFile).1 = some (GoErr.raw "E1") ∧
    (Upload wFsAfter emptyCtx demoFile).2.followUpLogged = some (GoErr.raw "E2") :=
  upload_afterUpload_error_precedence wFsAfter emptyCtx demoFile
    (GoErr.raw "E1") (GoErr.raw "E2") rfl rfl rfl rfl

/-- C4: for an update of an existing stored object, the resolved save path
is the origin file's recorded source name verbatim, `GenerateSavePath` is
never invoked, and any save path `Upload` binds equals that source name —
for every filesystem, hence regardless of naming-policy configuration. -/
theorem upload_update_uses_source_name (fs : FileSystem) (ctx : Ctx)
    (file : FileHeader) (origin : File) (h : ctx.fileModel = some origin) :
    savePathOf fs ctx file = origin.SourceName ∧
    genCalledOf fs ctx file = false ∧
    ((Upload fs ctx file).2.savePathBound = none ∨
     (Upload fs ctx file).2.savePathBound = some origin.SourceName) ∧
    (Upload fs ctx file).2.generateSavePathCalled = false := by
  have h1 : savePathOf fs ctx file = origin.SourceName := by
    simp [savePathOf, resolveSavePath, ctxWithFile, h]
  have h2 : genCalledOf fs ctx file = false := by
    simp [genCalledOf, resolveSavePath, ctxWithFile, h]
  refine ⟨h1, h2, ?_, ?_⟩ <;>
  · unfold Upload
    cases hb : Trigger (ctxWithFile ctx file) fs.beforeUpload with
    | some e => simp [emptyUploadTrace]
    | none =>
      cases hp : fs.handlerPut (ctxBound fs ctx file) file (savePathOf fs ctx file)
          file.size with
      | some e => simp [h1, h2]
      | none =>
        cases ha : Trigger (ctxBound fs ctx file) fs.afterUpload with
        | some e => simp [h1, h2]
        | none => simp [h1, h2]

/-- Witness for C4 at a concrete update request. -/
theorem upload_update_uses_source_name_witness :
    savePathOf wFsUpdate wCtxUpdate demoFile = "uploads/1/origin.bin" ∧
    genCalledOf wFsUpdate wCtxUpdate demoFile = false ∧
    ((Upload wFsUpdate wCtxUpdate demoFile).2.savePathBound = none ∨
     (Upload wFsUpdate wCtxUpdate demoFile).2.savePathBound = some "uploads/1/origin.bin") ∧
    (Upload wFsUpdate wCtxUpdate demoFile).2.generateSavePathCalled = false :=
  upload_update_uses_source_name wFsUpdate wCtxUpdate demoFile
    { SourceName := "uploads/1/origin.bin" } rfl

/-- Anonymous witness filesystem (owner ID zero). -/
def wFsAnon : FileSystem :=
  { userID := 0, userNick := "", userPolicy := zeroPolicy,
    handlerPut := okPut, handlerToken := okToken }

/-- The declared upload policy of the anonymous scenario:
remote type, auto-rename off, directory rule `/anon`, file rule `{name}`. -/
def wUploadPolicy : UploadPolicy :=
  { AutoRename := false, SavePath := "/anon", FileName := "{name}" }

/-- Witness context carrying the declared anonymous upload policy. -/
def wCtxAnon : Ctx := { uploadPolicy := some wUploadPolicy }

/-- C7: for an anonymous request carrying a declared upload policy,
`GenerateSavePath` applies the same naming-rule expansions as the
authenticated case with owner identity zero, joining the directory rule's
result with the file rule's result; in the concrete scenario (virtual path
`/a.txt`, directory rule `/anon`, file rule `{name}`, auto-rename off) the
resolved destination is `/anon/a.txt`. -/
theorem generateSavePath_anonymous_policy :
    (∀ (fs : FileSystem) (ctx : Ctx) (file : FileHeader) (p : UploadPolicy),
        fs.userID = 0 → ctx.uploadPolicy = some p →
        GenerateSavePath fs ctx file =
          filepathJoin (Policy.GeneratePath (policyOfUpload p) 0 "")
            (Policy.GenerateFileName (policyOfUpload p) 0 file.fileName ctx.rand)) ∧
    GenerateSavePath wFsAnon wCtxAnon demoFile = "/anon/a.txt" := by
  constructor
  · intro fs ctx file p h0 hp
    simp [GenerateSavePath, anonymousPolicyOf, h0, hp]
  · decide

/-- Witness for C7: the general clause applied to the concrete anonymous
scenario. -/
theorem generateSavePath_anonymous_policy_witness :
    GenerateSavePath wFsAnon wCtxAnon demoFile =
      filepathJoin (Policy.GeneratePath (policyOfUpload wUploadPolicy) 0 "")
        (Policy.GenerateFileName (policyOfUpload wUploadPolicy) 0 demoFile.fileName
          wCtxAnon.rand) :=
  generateSavePath_anonymous_policy.1 wFsAnon wCtxAnon demoFile wUploadPolicy rfl rfl

/-- C10: for an anonymous request whose context carries no declared upload
policy, `GenerateSavePath` reports no error: it falls back to the
zero-valued policy and still returns the join of the two rule expansions
(owner identity zero, empty virtual path) — here the empty string, since
both zero rules expand to the empty string. -/
theorem generateSavePath_anonymous_no_policy (fs : FileSystem) (ctx : Ctx)
    (file : FileHeader) (h0 : fs.userID = 0) (hp : ctx.uploadPolicy = none) :
    GenerateSavePath fs ctx file =
      filepathJoin (Policy.GeneratePath zeroPolicy 0 "")
        (Policy.GenerateFileName zeroPolicy 0 file.fileName ctx.rand) ∧
    GenerateSavePath fs ctx file = "" := by
  have h : GenerateSavePath fs ctx file =
      filepathJoin (Policy.GeneratePath zeroPolicy 0 "")
        (Policy.GenerateFileName zeroPolicy 0 file.fileName ctx.rand) := by
    simp [GenerateSavePath, anonymousPolicyOf, h0, hp]
  exact ⟨h, h.trans rfl⟩

/-- Witness for C10 at a concrete anonymous request with an empty context. -/
theorem generateSavePath_anonymous_no_policy_witness :
    GenerateSavePath wFsAnon emptyCtx demoFile =
      filepathJoin (Policy.GeneratePath zeroPolicy 0 "")
        (Policy.GenerateFileName zeroPolicy 0 demoFile.fileName emptyCtx.rand) ∧
    GenerateSavePath wFsAnon emptyCtx demoFile = "" :=
  generateSavePath_anonymous_no_policy wFsAnon emptyCtx demoFile rfl rfl

/-- Witness filesystem for the cancellation watcher, with a registered
AfterUploadCanceled hook. -/
def wFsCancel : FileSystem :=
  { userID := 1, userNick := "u", userPolicy := demoPolicy,
    afterUploadCanceled := some (fun _ => none),
    handlerPut := okPut, handlerToken := okToken }

/-- Witness context in which the request context ends at time 5 and the
operation context ends at time 10. -/
def wCtxAbort : Ctx :=
  { ginCtx := some { reqDoneAt := some 5 }, doneAt := some 10 }

/-- C2: assuming the request-scoped context ends at time `tReq`: if the
operation-scoped context ends strictly later (or never), a registered
AfterUploadCanceled hook fires exactly once; if the operation-scoped
context has already ended at `tReq`, the hook never fires; and with no
registered hook the watcher takes no action on abort detection. -/
theorem cancelUpload_fire_semantics (fs : FileSystem) (ctx : Ctx) (path : String)
    (tReq : Nat) (hreq : reqContextOf ctx = some (some tReq)) :
    ((∀ tOp, ctx.doneAt = some tOp → tReq < tOp) →
      ∀ h, fs.afterUploadCanceled = some h →
        (CancelUpload fs ctx path).fireCount = 1) ∧
    (∀ tOp, ctx.doneAt = some tOp → tOp ≤ tReq →
      (CancelUpload fs ctx path).fireCount = 0) ∧
    (fs.afterUploadCanceled = none → CancelUpload fs ctx path = CancelOutcome.noFire) := by
  refine ⟨?_, ?_, ?_⟩
  · intro hop h hh
    have hE : opEndedBy ctx tReq = false := by
      unfold opEndedBy
      cases hd : ctx.doneAt with
      | none => rfl
      | some tOp =>
        have := hop tOp hd
        simp
        omega
    simp [CancelUpload, hreq, hE, hh, CancelOutcome.fireCount]
  · intro tOp hd hle
    have hE : opEndedBy ctx tReq = true := by
      unfold opEndedBy
      rw [hd]
      simpa using hle
    simp [CancelUpload, hreq, hE, CancelOutcome.fireCount]
  · intro hn
    cases hE : opEndedBy ctx tReq with
    | true => simp [CancelUpload, hreq, hE]
    | false => simp [CancelUpload, hreq, hE, hn]

/-- Witness for C2: request context ends at 5, operation context at 10,
hook registered: the hook fires exactly once. -/
theorem cancelUpload_fire_semantics_witness :
    (CancelUpload wFsCancel wCtxAbort "/tmp/part").fireCount = 1 :=
  (cancelUpload_fire_semantics wFsCancel wCtxAbort "/tmp/part" 5 rfl).1
    (by
      intro tOp hd
      have h10 : wCtxAbort.doneAt = some 10 := rfl
      rw [h10] at hd
      cases hd
      omega)
    (fun _ => none) rfl

/-- C9: `CancelUpload` panics exactly when the context carries neither a
gin request context nor an HTTP context value that is a `context.Context`;
under that precondition it never panics. -/
theorem cancelUpload_panics_iff_no_request_ctx (fs : FileSystem) (ctx : Ctx)
    (path : String) :
    CancelUpload fs ctx path = CancelOutcome.panicked ↔ hasReqCtx ctx = false := by
  unfold CancelUpload reqContextOf hasReqCtx
  cases hg : ctx.ginCtx with
  | some g =>
    cases hd : g.reqDoneAt with
    | none => simp [hd]
    | some tReq =>
      cases hE : opEndedBy ctx tReq with
      | true => simp [hd, hE]
      | false =>
        cases hn : fs.afterUploadCanceled with
        | none => simp [hd, hE, hn]
        | some h => simp [hd, hE, hn]
  | none =>
    cases hh : ctx.httpVal with
    | none => simp
    | some hv =>
      cases hv with
      | otherVal => simp
      | ctxVal d =>
        cases hd : d with
        | none => simp
        | some tReq =>
          cases hE : opEndedBy ctx tReq with
          | true => simp [hE]
          | false =>
            cases hn : fs.afterUploadCanceled with
            | none => simp [hE, hn]
            | some h => simp [hE, hn]

/-- Witness filesystem for the credential issuer. -/
def wFsToken : FileSystem :=
  { userID := 7, userNick := "u", userPolicy := demoPolicy,
    handlerPut := okPut, handlerToken := okToken }

/-- Witness globals whose cache `Set` always fails. -/
def wGlobalsFailCache : Globals :=
  { settings := [], cacheSet := fun _ _ _ => some (GoErr.raw "cache down"),
    randKey := "K0123456789" }

/-- Witness globals with a non-numeric credential-TTL setting. -/
def wGlobalsBadTTL : Globals :=
  { settings := [("upload_credential_timeout", "abc")],
    cacheSet := fun _ _ _ => none, randKey := "K0123456789" }

/-- Witness globals with a non-numeric session-TTL setting. -/
def wGlobalsBadSessTTL : Globals :=
  { settings := [("upload_session_timeout", "abc")],
    cacheSet := fun _ _ _ => none, randKey := "K0123456789" }

/-- C1: `GetUploadToken` returns a credential exactly when the handler's
`Token` call succeeded and the CallbackSession was successfully persisted;
every cache call uses the key `callback_` plus the correlation token and
the session `{ownerID, virtualPath}`; and when the cache `Set` fails, its
error is returned instead of a credential. -/
theorem getUploadToken_atomic (g : Globals) (fs : FileSystem) (path : String)
    (size : Nat) :
    ((∃ c, (GetUploadToken g fs path size).1 = .ok c) ↔
      ((∃ c, (GetUploadToken g fs path size).2.tokenResult = some (.ok c)) ∧
       (GetUploadToken g fs path size).2.cacheResult = some none)) ∧
    (∀ k s t, (GetUploadToken g fs path size).2.cacheCall = some (k, s, t) →
      k = "callback_" ++ g.randKey ∧ s = ⟨fs.userID, path⟩) ∧
    (∀ e, (GetUploadToken g fs path size).2.cacheResult = some (some e) →
      (GetUploadToken g fs path size).1 = .error e) := by
  unfold GetUploadToken
  cases hT : computeTTLs g.settings with
  | error e => simp [hT]
  | ok p =>
    obtain ⟨credentialTTL, callBackSessionTTL⟩ := p
    cases hTok : fs.handlerToken credentialTTL g.randKey with
    | error e => simp [hT, hTok]
    | ok credential =>
      cases hC : g.cacheSet ("callback_" ++ g.randKey)
          ⟨fs.userID, path⟩ callBackSessionTTL with
      | some e => simp [hT, hTok, hC]
      | none => simp [hT, hTok, hC]

/-- Witness for C1: with a failing cache, the cache error is returned and
no credential is issued. -/
theorem getUploadToken_atomic_witness :
    (GetUploadToken wGlobalsFailCache wFsToken "/v/p.txt" 9).1 =
      .error (GoErr.raw "cache down") :=
  (getUploadToken_atomic wGlobalsFailCache wFsToken "/v/p.txt" 9).2.2
    (GoErr.raw "cache down") rfl

/-- C6: each missing TTL setting falls back to its default independently —
a missing credential-TTL setting yields 3600 whatever the session setting
resolves to, and a missing session-TTL setting yields 86400 whatever the
credential setting resolves to (including the both-absent case); the
strings `3600` and `86400` parse to 3600 and 86400; a present but
non-numeric credential-TTL setting, and likewise a present but non-numeric
session-TTL setting (once the credential setting itself resolves), make TTL
resolution fail with a `CodeInternalSetting` configuration error, and any
TTL-resolution error makes `GetUploadToken` return that error with no
handler `Token` call and no cache call — concretely so for the setting
value `abc` in either position. -/
theorem getUploadToken_ttl_config :
    (∀ g : Globals,
        lookupSetting g.settings "upload_credential_timeout" = none →
        lookupSetting g.settings "upload_session_timeout" = none →
        computeTTLs g.settings = .ok (3600, 86400)) ∧
    (∀ (g : Globals) (str : String) (v : Int),
        lookupSetting g.settings "upload_credential_timeout" = none →
        lookupSetting g.settings "upload_session_timeout" = some str →
        parseInt64 str = some v →
        computeTTLs g.settings = .ok (3600, v)) ∧
    (∀ (g : Globals) (str : String) (v : Int),
        lookupSetting g.settings "upload_credential_timeout" = some str →
        parseInt64 str = some v →
        lookupSetting g.settings "upload_session_timeout" = none →
        computeTTLs g.settings = .ok (v, 86400)) ∧
    (parseInt64 "3600" = some 3600 ∧ parseInt64 "86400" = some 86400) ∧
    (∀ (g : Globals) (s : String),
        lookupSetting g.settings "upload_credential_timeout" = some s →
        parseInt64 s = none →
        computeTTLs g.settings =
          .error (GoErr.app ErrCode.internalSetting
            "invalid upload credential ttl setting" (GoErr.raw s))) ∧
    (∀ (g : Globals) (s : String),
        lookupSetting g.settings "upload_session_timeout" = some s →
        parseInt64 s = none →
        (lookupSetting g.settings "upload_credential_timeout" = none ∨
         ∃ cs v, lookupSetting g.settings "upload_credential_timeout" = some cs ∧
           parseInt64 cs = some v) →
        computeTTLs g.settings =
          .error (GoErr.app ErrCode.internalSetting
            "invalid upload session ttl setting" (GoErr.raw s))) ∧
    (∀ (g : Globals) (fs : FileSystem) (path : String) (size : Nat) (e : GoErr),
        computeTTLs g.settings = .error e →
        (GetUploadToken g fs path size).1 = .error e ∧
        (GetUploadToken g fs path size).2.tokenCall = none ∧
        (GetUploadToken g fs path size).2.cacheCall = none) ∧
    ((GetUploadToken wGlobalsBadTTL wFsToken "/p" 0).1 =
      .error (GoErr.app ErrCode.internalSetting
        "invalid upload credential ttl setting" (GoErr.raw "abc")) ∧
     (GetUploadToken wGlobalsBadTTL wFsToken "/p" 0).2.tokenCall = none ∧
     (GetUploadToken wGlobalsBadTTL wFsToken "/p" 0).2.cacheCall = none) ∧
    ((GetUploadToken wGlobalsBadSessTTL wFsToken "/p" 0).1 =
      .error (GoErr.app ErrCode.internalSetting
        "invalid upload session ttl setting" (GoErr.raw "abc")) ∧
     (GetUploadToken wGlobalsBadSessTTL wFsToken "/p" 0).2.tokenCall = none ∧
     (GetUploadToken wGlobalsBadSessTTL wFsToken "/p" 0).2.cacheCall = none) := by
  refine ⟨?_, ?_, ?_, ⟨by decide, by decide⟩, ?_, ?_, ?_,
         ⟨rfl, rfl, rfl⟩, ⟨rfl, rfl, rfl⟩⟩
  · intro g hc hs
    simp [computeTTLs, hc, hs]
  · intro g str v hc hs hv
    simp [computeTTLs, hc, hs, hv]
  · intro g str v hc hv hs
    simp [computeTTLs, hc, hv, hs]
  · intro g s hc hp
    simp [computeTTLs, hc, hp]
  · intro g s hs hp hcred
    rcases hcred with hc | ⟨cs, v, hc, hv⟩
    · simp [computeTTLs, hc, hs, hp]
    · simp [computeTTLs, hc, hv, hs, hp]
  · intro g fs path size e hT
    simp [GetUploadToken, hT]

/-- Witness for C6: the error-propagation clause applied to the concrete
globals whose session-TTL setting is the non-numeric `abc`. -/
theorem getUploadToken_ttl_config_witness :
    (GetUploadToken wGlobalsBadSessTTL wFsToken "/p" 0).1 =
      .error (GoErr.app ErrCode.internalSetting
        "invalid upload session ttl setting" (GoErr.raw "abc")) ∧
    (GetUploadToken wGlobalsBadSessTTL wFsToken "/p" 0).2.tokenCall = none ∧
    (GetUploadToken wGlobalsBadSessTTL wFsToken "/p" 0).2.cacheCall = none :=
  getUploadToken_ttl_config.2.2.2.2.2.2.1 wGlobalsBadSessTTL wFsToken "/p" 0
    (GoErr.app ErrCode.internalSetting
      "invalid upload session ttl setting" (GoErr.raw "abc")) rfl

end Cloudreve
